import Mathlib

/-!
Shallow embedding of the multi-tenant notes service backend
(`api/index.ts`): the identity token codec, the credential verifier,
and the per-endpoint authorization / quota logic of the Hono handlers
(`/auth/login`, `/tenants/:slug/upgrade`, `/tenants/:slug/invite`,
`/notes`, `/notes/:id`).  Storage (PostgreSQL tables) is modelled as
explicit lists of rows; each handler is a pure function from the decoded
request and the current store to an HTTP response and the next store.
-/

namespace MultiTenant

/-- Rows of the `role` check constraint: `role IN ('admin','member')`. -/
inductive Role where
  | admin
  | member
deriving DecidableEq, Repr

/-- Rows of the `plan` check constraint: `plan IN ('free','pro')`. -/
inductive Plan where
  | free
  | pro
deriving DecidableEq, Repr

/-- The `JWTPayload` type of the backend: the session claim carried in the token. -/
structure JWTPayload where
  sub : Nat
  email : String
  role : Role
  tenantId : Nat
  tenantSlug : String
  plan : Plan
deriving DecidableEq, Repr

/-- A row of the `notes` table. Timestamps are modelled as natural numbers. -/
structure Note where
  id : Nat
  tenant_id : Nat
  user_id : Nat
  title : String
  content : String
  created_at : Nat
  updated_at : Nat
deriving DecidableEq, Repr

/-- Modelled from the spec: the Credential Verifier (§4.2) uses the external
bcryptjs library, which is not part of this repository.  A stored hash is
abstracted as a constructor recording the hashed plaintext and the cost
factor; comparison succeeds exactly on the recorded plaintext, never
revealing it. -/
inductive HashValue where
  | bcrypt (plain : String) (cost : Nat)
deriving DecidableEq, Repr

/-- Model of `bcrypt.hash(plain, cost)`. -/
def bcryptHash (plain : String) (cost : Nat) : HashValue :=
  HashValue.bcrypt plain cost

/-- Model of `bcrypt.compare(password, storedHash)`. -/
def bcryptCompare (password : String) (h : HashValue) : Bool :=
  match h with
  | HashValue.bcrypt plain _ => password == plain

/-- A row of the `users` table. -/
structure User where
  id : Nat
  email : String
  password_hash : HashValue
  role : Role
  tenant_id : Nat
deriving DecidableEq, Repr

/-- A row of the `tenants` table. -/
structure Tenant where
  id : Nat
  slug : String
  name : String
  plan : Plan
deriving DecidableEq, Repr

/-- Modelled from the spec: the HS256 signature computed by the external
jsonwebtoken library (Identity Token Codec, §4.1), abstracted as a
tamper-evident record of exactly the signing inputs (shared secret,
payload, expiry). -/
structure Signature where
  secret : String
  payload : JWTPayload
  exp : Nat
deriving DecidableEq, Repr

/-- The abstract HMAC-SHA256 tag over the token contents under a secret. -/
def hmacSha256 (secret : String) (payload : JWTPayload) (exp : Nat) : Signature :=
  { secret := secret, payload := payload, exp := exp }

/-- A signed token: payload, embedded expiry, signature segment. -/
structure Token where
  payload : JWTPayload
  exp : Nat
  sig : Signature
deriving DecidableEq, Repr

/-- Token lifetime used by `signToken`: `expiresIn: '7d'`, in seconds. -/
def tokenLifetime : Nat := 7 * 24 * 60 * 60

/-- `signToken` of the backend: `jwt.sign(payload, JWT_SECRET, { algorithm: 'HS256', expiresIn: '7d' })`,
issued at time `now` (seconds). -/
def signToken (secret : String) (payload : JWTPayload) (now : Nat) : Token :=
  { payload := payload
    exp := now + tokenLifetime
    sig := hmacSha256 secret payload (now + tokenLifetime) }

/-- Outcomes of `jwt.verify`: decoded payload, or the expiry / signature failures. -/
inductive VerifyResult where
  | ok (payload : JWTPayload)
  | expired
  | badSignature
deriving DecidableEq, Repr

/-- Modelled from the spec: `jwt.verify(token, JWT_SECRET)` of the external
jsonwebtoken library (§4.1): validates the signature, then rejects the token
when the current time has reached the embedded expiry, else returns the
decoded claim. -/
def verifyToken (secret : String) (t : Token) (now : Nat) : VerifyResult :=
  if t.sig ≠ hmacSha256 secret t.payload t.exp then VerifyResult.badSignature
  else if t.exp ≤ now then VerifyResult.expired
  else VerifyResult.ok t.payload

/-- JSON bodies the handlers can produce (only the shapes the embedded
endpoints return). -/
inductive RespBody where
  | errorMsg (error : String)
  | errorWithMessage (error message : String)
  | noteJson (n : Note)
  | successJson
  | planJson (plan : Plan)
  | loginJson (token : Token) (email : String) (role : Role) (slug name : String) (plan : Plan)
deriving DecidableEq, Repr

/-- An HTTP response: status code and JSON body. -/
structure Resp where
  status : Nat
  body : RespBody
deriving DecidableEq, Repr

/-- JavaScript falsiness of an optional string field of a JSON body:
`!x` is true when the field is absent/null (`none`) or the empty string. -/
def jsFalsy : Option String → Bool
  | none => true
  | some s => s.isEmpty

/-- The `requireAuth(requiredRole?)` middleware: missing header → 401;
invalid or expired token → 401; role mismatch (when a role is required)
→ 403; otherwise the decoded claim is handed to the handler. -/
def requireAuth (requiredRole : Option Role) (secret : String)
    (authHeader : Option Token) (now : Nat) : Except Resp JWTPayload :=
  match authHeader with
  | none => Except.error ⟨401, RespBody.errorMsg "Unauthorized"⟩
  | some token =>
    match verifyToken secret token now with
    | VerifyResult.ok decoded =>
      match requiredRole with
      | some r =>
        if decoded.role ≠ r then Except.error ⟨403, RespBody.errorMsg "Forbidden"⟩
        else Except.ok decoded
      | none => Except.ok decoded
    | _ => Except.error ⟨401, RespBody.errorMsg "Invalid token"⟩

/-- `SELECT ... FROM notes WHERE id = $1 AND tenant_id = $2`, first row. -/
def findNote (notes : List Note) (id tenantId : Nat) : Option Note :=
  notes.find? (fun n => n.id == id && n.tenant_id == tenantId)

/-- Handler of `GET /notes/:id`: the note is looked up by id scoped to the
claim's tenant; 404 when absent, else the note. -/
def getNote (auth : JWTPayload) (id : Nat) (notes : List Note) : Resp :=
  match findNote notes id auth.tenantId with
  | none => ⟨404, RespBody.errorMsg "Note not found"⟩
  | some note => ⟨200, RespBody.noteJson note⟩

/-- The `INSERT INTO notes ... RETURNING ...` step of `POST /notes`. -/
def insertNote (auth : JWTPayload) (title content : String) (newId now : Nat)
    (notes : List Note) : Resp × List Note :=
  let note : Note :=
    { id := newId, tenant_id := auth.tenantId, user_id := auth.sub
      title := title, content := content, created_at := now, updated_at := now }
  (⟨201, RespBody.noteJson note⟩, notes ++ [note])

/-- Handler of `POST /notes`: body validation, then the free-plan quota check
(the tenant's plan is read from the `tenants` table, the count from the
`notes` table), then the insert. -/
def createNote (auth : JWTPayload) (title content : Option String)
    (tenants : List Tenant) (notes : List Note) (newId now : Nat) : Resp × List Note :=
  if jsFalsy title || jsFalsy content then
    (⟨400, RespBody.errorMsg "Title and content are required"⟩, notes)
  else
    match tenants.find? (fun t => t.id == auth.tenantId) with
    | none => (⟨500, RespBody.errorMsg "Failed to create note"⟩, notes)
    | some tenant =>
      if tenant.plan = Plan.free then
        if (notes.filter (fun n => n.tenant_id == auth.tenantId)).length ≥ 3 then
          (⟨402, RespBody.errorWithMessage "note_limit_reached"
              "Free plan is limited to 3 notes. Upgrade to Pro for unlimited notes."⟩,
            notes)
        else insertNote auth (title.getD "") (content.getD "") newId now notes
      else insertNote auth (title.getD "") (content.getD "") newId now notes

/-- Handler of `PUT /notes/:id`: tenant-scoped lookup (404 when absent),
member ownership check (403), then
`UPDATE notes SET title = COALESCE($1, title), content = COALESCE($2, content), updated_at = NOW() WHERE id = $3 RETURNING ...`. -/
def updateNote (auth : JWTPayload) (id : Nat) (title content : Option String)
    (now : Nat) (notes : List Note) : Resp × List Note :=
  match findNote notes id auth.tenantId with
  | none => (⟨404, RespBody.errorMsg "Note not found"⟩, notes)
  | some note =>
    if auth.role = Role.member ∧ note.user_id ≠ auth.sub then
      (⟨403, RespBody.errorMsg "Forbidden: You can only edit your own notes"⟩, notes)
    else
      let updated := notes.map (fun n =>
        if n.id == id then
          { n with title := title.getD n.title, content := content.getD n.content
                   updated_at := now }
        else n)
      match updated.find? (fun n => n.id == id) with
      | some row => (⟨200, RespBody.noteJson row⟩, updated)
      | none => (⟨500, RespBody.errorMsg "Failed to update note"⟩, updated)

/-- Handler of `DELETE /notes/:id`: tenant-scoped lookup (404 when absent),
member ownership check (403), then `DELETE FROM notes WHERE id = $1`. -/
def deleteNote (auth : JWTPayload) (id : Nat) (notes : List Note) : Resp × List Note :=
  match findNote notes id auth.tenantId with
  | none => (⟨404, RespBody.errorMsg "Note not found"⟩, notes)
  | some note =>
    if auth.role = Role.member ∧ note.user_id ≠ auth.sub then
      (⟨403, RespBody.errorMsg "Forbidden: You can only delete your own notes"⟩, notes)
    else
      (⟨200, RespBody.successJson⟩, notes.filter (fun n => !(n.id == id)))

/-- `POST /tenants/:slug/upgrade` with its `requireAuth('admin')` middleware:
role check first (middleware), then the path-slug check, then
`UPDATE tenants SET plan = 'pro' WHERE id = $1`. -/
def upgradePlan (secret : String) (authHeader : Option Token) (now : Nat)
    (slug : String) (tenants : List Tenant) : Resp × List Tenant :=
  match requireAuth (some Role.admin) secret authHeader now with
  | Except.error resp => (resp, tenants)
  | Except.ok auth =>
    if slug ≠ auth.tenantSlug then
      (⟨403, RespBody.errorMsg "Forbidden: Cannot upgrade other tenants"⟩, tenants)
    else
      (⟨200, RespBody.planJson Plan.pro⟩,
        tenants.map (fun t =>
          if t.id == auth.tenantId then { t with plan := Plan.pro } else t))

/-- `POST /tenants/:slug/invite` with its `requireAuth('admin')` middleware:
role check first (middleware), then the path-slug check, then body
validation, then the insert (email uniqueness violation → 409); the invited
user is stored with `bcrypt.hash('password', 10)`. -/
def inviteUser (secret : String) (authHeader : Option Token) (now : Nat)
    (slug : String) (email roleField : Option String)
    (users : List User) (newId : Nat) : Resp × List User :=
  match requireAuth (some Role.admin) secret authHeader now with
  | Except.error resp => (resp, users)
  | Except.ok auth =>
    if slug ≠ auth.tenantSlug then
      (⟨403, RespBody.errorMsg "Forbidden: Cannot invite to other tenants"⟩, users)
    else if jsFalsy email ∨ ¬(roleField = some "admin" ∨ roleField = some "member") then
      (⟨400, RespBody.errorMsg "Email and valid role are required"⟩, users)
    else if users.any (fun u => u.email == email.getD "") then
      (⟨409, RespBody.errorMsg "User already exists"⟩, users)
    else
      let newUser : User :=
        { id := newId, email := email.getD ""
          password_hash := bcryptHash "password" 10
          role := if roleField = some "admin" then Role.admin else Role.member
          tenant_id := auth.tenantId }
      (⟨200, RespBody.successJson⟩, users ++ [newUser])

/-- Handler of `POST /auth/login`: body validation, user lookup by email,
bcrypt comparison, tenant lookup, token issuance.  Both failure modes
(unknown email, wrong password) return the same 401 body. -/
def login (email password : Option String) (users : List User)
    (tenants : List Tenant) (secret : String) (now : Nat) : Resp :=
  if jsFalsy email || jsFalsy password then
    ⟨400, RespBody.errorMsg "Email and password are required"⟩
  else
    match users.find? (fun u => u.email == email.getD "") with
    | none => ⟨401, RespBody.errorMsg "Invalid credentials"⟩
    | some user =>
      if ¬ bcryptCompare (password.getD "") user.password_hash then
        ⟨401, RespBody.errorMsg "Invalid credentials"⟩
      else
        match tenants.find? (fun t => t.id == user.tenant_id) with
        | none => ⟨500, RespBody.errorMsg "Internal server error"⟩
        | some tenant =>
          ⟨200, RespBody.loginJson
            (signToken secret
              { sub := user.id, email := user.email, role := user.role
                tenantId := tenant.id, tenantSlug := tenant.slug, plan := tenant.plan }
              now)
            user.email user.role tenant.slug tenant.name tenant.plan⟩

/-- The PRIMARY KEY invariant of the `notes` table: ids are pairwise distinct. -/
def NotesPK (notes : List Note) : Prop :=
  (notes.map Note.id).Nodup

instance (notes : List Note) : Decidable (NotesPK notes) :=
  inferInstanceAs (Decidable ((notes.map Note.id).Nodup))

/-- Under the PRIMARY KEY invariant, a note is determined by its id. -/
theorem notesPK_id_inj {notes : List Note} (hnd : NotesPK notes) {m n : Note}
    (hm : m ∈ notes) (hn : n ∈ notes) (h : m.id = n.id) : m = n :=
  List.inj_on_of_nodup_map hnd hm hn h

/-- The tenant-scoped lookup finds a note of the claim's tenant. -/
theorem findNote_eq_some_of_mem (notes : List Note) (n : Note) (tid : Nat)
    (hnd : NotesPK notes) (hmem : n ∈ notes) (ht : n.tenant_id = tid) :
    findNote notes n.id tid = some n := by
  induction notes with
  | nil => cases hmem
  | cons hd tl ih =>
    rw [NotesPK, List.map_cons, List.nodup_cons] at hnd
    rcases List.mem_cons.mp hmem with heq | hmem'
    · subst heq
      rw [findNote, List.find?_cons_of_pos]
      simp [ht]
    · have hid : hd.id ≠ n.id := by
        intro h
        exact hnd.1 (h ▸ List.mem_map_of_mem Note.id hmem')
      rw [findNote, List.find?_cons_of_neg]
      · exact ih hnd.2 hmem'
      · simp [hid]

/-- The tenant-scoped lookup misses a note of a different tenant. -/
theorem findNote_eq_none_of_cross (notes : List Note) (n : Note) (tid : Nat)
    (hnd : NotesPK notes) (hmem : n ∈ notes) (ht : n.tenant_id ≠ tid) :
    findNote notes n.id tid = none := by
  rw [findNote, List.find?_eq_none]
  intro m hm
  simp only [Bool.and_eq_true, beq_iff_eq, not_and]
  intro hid
  have := notesPK_id_inj hnd hm hmem hid
  subst this
  exact ht

/-- The tenant-scoped lookup misses an id that no note carries. -/
theorem findNote_eq_none_of_absent (notes : List Note) (id tid : Nat)
    (h : ∀ m ∈ notes, m.id ≠ id) : findNote notes id tid = none := by
  rw [findNote, List.find?_eq_none]
  intro m hm
  simp only [Bool.and_eq_true, beq_iff_eq, not_and]
  intro hid
  exact absurd hid (h m hm)

/-- Re-finding an id after an id-preserving rewrite of the row with that id. -/
theorem find?_id_after_update (notes : List Note) (n : Note) (f : Note → Note)
    (hf : ∀ m, (f m).id = m.id) (hnd : NotesPK notes) (hmem : n ∈ notes) :
    ((notes.map (fun m => if m.id == n.id then f m else m)).find?
      (fun m => m.id == n.id)) = some (f n) := by
  induction notes with
  | nil => cases hmem
  | cons hd tl ih =>
    rw [NotesPK, List.map_cons, List.nodup_cons] at hnd
    rcases List.mem_cons.mp hmem with heq | hmem'
    · subst heq
      rw [List.map_cons, if_pos (by simp), List.find?_cons_of_pos]
      simp [hf]
    · have hid : hd.id ≠ n.id := by
        intro h
        exact hnd.1 (h ▸ List.mem_map_of_mem Note.id hmem')
      rw [List.map_cons, if_neg (by simp [hid]), List.find?_cons_of_neg]
      · exact ih hnd.2 hmem'
      · simp [hid]

/-- An authorized update rewrites exactly the row with the note's id and
returns the rewritten row. -/
theorem updateNote_authorized (auth : JWTPayload) (n : Note) (t c : Option String)
    (now : Nat) (notes : List Note) (hnd : NotesPK notes) (hmem : n ∈ notes)
    (htid : n.tenant_id = auth.tenantId)
    (hown : ¬(auth.role = Role.member ∧ n.user_id ≠ auth.sub)) :
    updateNote auth n.id t c now notes =
      (⟨200, RespBody.noteJson
          { n with title := t.getD n.title, content := c.getD n.content
                   updated_at := now }⟩,
        notes.map (fun m =>
          if m.id == n.id then
            { m with title := t.getD m.title, content := c.getD m.content
                     updated_at := now }
          else m)) := by
  have hfind := findNote_eq_some_of_mem notes n auth.tenantId hnd hmem htid
  have hfind2 := find?_id_after_update notes n
    (fun m => { m with title := t.getD m.title, content := c.getD m.content
                       updated_at := now })
    (fun _ => rfl) hnd hmem
  simp only [updateNote, hfind, if_neg hown, hfind2]

/-! ### Concrete fixture: the seeded tenants and users, plus sample notes -/

def secret0 : String := "dev-secret-change-in-production"

def acme : Tenant := ⟨1, "acme", "Acme Corporation", Plan.free⟩

def globex : Tenant := ⟨2, "globex", "Globex Corporation", Plan.free⟩

def tenants0 : List Tenant := [acme, globex]

def adminAcme : JWTPayload :=
  ⟨1, "admin@acme.test", Role.admin, 1, "acme", Plan.free⟩

def memberAcme : JWTPayload :=
  ⟨2, "user@acme.test", Role.member, 1, "acme", Plan.free⟩

def noteAcme : Note := ⟨1, 1, 2, "n1", "c1", 0, 0⟩

def noteAcme2 : Note := ⟨2, 1, 1, "n2", "c2", 0, 0⟩

def noteGlobex : Note := ⟨3, 2, 3, "n3", "c3", 0, 0⟩

def notes0 : List Note := [noteAcme, noteAcme2, noteGlobex]

/-! ### Claims -/

/-- C1: Tenant isolation — for every decoded claim and every note of a
different tenant, `getNote`, `updateNote` and `deleteNote` all answer 404
and leave the store untouched, whatever the claim's role. -/
theorem tenant_isolation (auth : JWTPayload) (n : Note) (t c : Option String)
    (now : Nat) (notes : List Note) (hnd : NotesPK notes) (hmem : n ∈ notes)
    (hcross : n.tenant_id ≠ auth.tenantId) :
    getNote auth n.id notes = ⟨404, RespBody.errorMsg "Note not found"⟩ ∧
    updateNote auth n.id t c now notes =
      (⟨404, RespBody.errorMsg "Note not found"⟩, notes) ∧
    deleteNote auth n.id notes =
      (⟨404, RespBody.errorMsg "Note not found"⟩, notes) := by
  have hfind := findNote_eq_none_of_cross notes n auth.tenantId hnd hmem hcross
  refine ⟨?_, ?_, ?_⟩
  · rw [getNote, hfind]
  · rw [updateNote, hfind]
  · rw [deleteNote, hfind]

/-- C1 witness: an admin claim of tenant acme against a globex note. -/
theorem tenant_isolation_witness :
    (NotesPK notes0 ∧ noteGlobex ∈ notes0 ∧
      noteGlobex.tenant_id ≠ adminAcme.tenantId) ∧
    (getNote adminAcme noteGlobex.id notes0 =
        ⟨404, RespBody.errorMsg "Note not found"⟩ ∧
      updateNote adminAcme noteGlobex.id (some "x") (some "y") 9 notes0 =
        (⟨404, RespBody.errorMsg "Note not found"⟩, notes0) ∧
      deleteNote adminAcme noteGlobex.id notes0 =
        (⟨404, RespBody.errorMsg "Note not found"⟩, notes0)) :=
  ⟨⟨by decide, by decide, by decide⟩,
    tenant_isolation adminAcme noteGlobex (some "x") (some "y") 9 notes0
      (by decide) (by decide) (by decide)⟩

/-- C7: Token round-trip — verifying a token issued for a claim returns the
claim unchanged while less than the 7-day lifetime has elapsed; once the
embedded expiry lies in the past, verification yields the Expired outcome
and the middleware answers 401. -/
theorem token_roundtrip (secret : String) (p : JWTPayload) (issuedAt now later : Nat)
    (hfresh : now < issuedAt + tokenLifetime)
    (hpast : issuedAt + tokenLifetime < later) :
    verifyToken secret (signToken secret p issuedAt) now = VerifyResult.ok p ∧
    verifyToken secret (signToken secret p issuedAt) later = VerifyResult.expired ∧
    requireAuth none secret (some (signToken secret p issuedAt)) later =
      Except.error ⟨401, RespBody.errorMsg "Invalid token"⟩ := by
  have hexp : (signToken secret p issuedAt).exp = issuedAt + tokenLifetime := rfl
  have h1 : verifyToken secret (signToken secret p issuedAt) now = VerifyResult.ok p := by
    rw [verifyToken, if_neg (fun h => h rfl), hexp, if_neg (Nat.not_le.mpr hfresh)]
    rfl
  have h2 : verifyToken secret (signToken secret p issuedAt) later = VerifyResult.expired := by
    rw [verifyToken, if_neg (fun h => h rfl), hexp, if_pos (Nat.le_of_lt hpast)]
  refine ⟨h1, h2, ?_⟩
  simp only [requireAuth, h2]

/-- C7 witness: the admin claim, issued at time 0, verified fresh at one hour
and expired shortly after the 7-day mark. -/
theorem token_roundtrip_witness :
    (3600 < 0 + tokenLifetime ∧ 0 + tokenLifetime < 604801) ∧
    (verifyToken secret0 (signToken secret0 adminAcme 0) 3600 =
        VerifyResult.ok adminAcme ∧
      verifyToken secret0 (signToken secret0 adminAcme 0) 604801 =
        VerifyResult.expired ∧
      requireAuth none secret0 (some (signToken secret0 adminAcme 0)) 604801 =
        Except.error ⟨401, RespBody.errorMsg "Invalid token"⟩) :=
  ⟨⟨by decide, by decide⟩,
    token_roundtrip secret0 adminAcme 0 3600 604801 (by decide) (by decide)⟩

/-- C2: Quota gating — with a valid body, creation under a free-plan tenant
succeeds with 201 exactly while the tenant's note count is below 3 and is
otherwise refused with 402 and reason note_limit_reached, leaving the store
unchanged; under a pro-plan tenant creation succeeds for every count. -/
theorem quota_gating (auth : JWTPayload) (title content : String)
    (ht : title.isEmpty = false) (hc : content.isEmpty = false)
    (tenants : List Tenant) (notes : List Note) (newId now : Nat) (tenant : Tenant)
    (hfind : tenants.find? (fun t => t.id == auth.tenantId) = some tenant) :
    (tenant.plan = Plan.free →
      (((notes.filter (fun n => n.tenant_id == auth.tenantId)).length < 3 →
          (createNote auth (some title) (some content) tenants notes newId now).1.status
            = 201) ∧
        (3 ≤ (notes.filter (fun n => n.tenant_id == auth.tenantId)).length →
          createNote auth (some title) (some content) tenants notes newId now =
            (⟨402, RespBody.errorWithMessage "note_limit_reached"
                "Free plan is limited to 3 notes. Upgrade to Pro for unlimited notes."⟩,
              notes)))) ∧
    (tenant.plan = Plan.pro →
      (createNote auth (some title) (some content) tenants notes newId now).1.status
        = 201) := by
  have hval : (jsFalsy (some title) || jsFalsy (some content)) = false := by
    simp [jsFalsy, ht, hc]
  refine ⟨fun hfree => ⟨fun hlt => ?_, fun hge => ?_⟩, fun hpro => ?_⟩
  · simp [createNote, hval, hfind, hfree, insertNote, Nat.not_le.mpr hlt]
  · simp [createNote, hval, hfind, hfree, hge]
  · simp [createNote, hval, hfind, hpro, insertNote]

/-- C2 witness: the admin of the free acme tenant creating a note over the
seeded store. -/
theorem quota_gating_witness :
    ("t".isEmpty = false ∧ "c".isEmpty = false ∧
      tenants0.find? (fun t => t.id == adminAcme.tenantId) = some acme) ∧
    ((acme.plan = Plan.free →
        (((notes0.filter (fun n => n.tenant_id == adminAcme.tenantId)).length < 3 →
            (createNote adminAcme (some "t") (some "c") tenants0 notes0 7 9).1.status
              = 201) ∧
          (3 ≤ (notes0.filter (fun n => n.tenant_id == adminAcme.tenantId)).length →
            createNote adminAcme (some "t") (some "c") tenants0 notes0 7 9 =
              (⟨402, RespBody.errorWithMessage "note_limit_reached"
                  "Free plan is limited to 3 notes. Upgrade to Pro for unlimited notes."⟩,
                notes0)))) ∧
      (acme.plan = Plan.pro →
        (createNote adminAcme (some "t") (some "c") tenants0 notes0 7 9).1.status
          = 201)) :=
  ⟨⟨by decide, by decide, by decide⟩,
    quota_gating adminAcme "t" "c" (by decide) (by decide) tenants0 notes0 7 9 acme
      (by decide)⟩

/-- C3: Ownership gating — a member claim may not update or delete a note of
its tenant owned by another user (403 in both cases, store untouched), while
an admin claim on the same note is allowed to update and to delete it. -/
theorem ownership_gating (auth : JWTPayload) (n : Note) (t c : Option String)
    (now : Nat) (notes : List Note) (hnd : NotesPK notes) (hmem : n ∈ notes)
    (htid : n.tenant_id = auth.tenantId) (hnotown : n.user_id ≠ auth.sub) :
    (auth.role = Role.member →
      updateNote auth n.id t c now notes =
        (⟨403, RespBody.errorMsg "Forbidden: You can only edit your own notes"⟩, notes) ∧
      deleteNote auth n.id notes =
        (⟨403, RespBody.errorMsg "Forbidden: You can only delete your own notes"⟩, notes)) ∧
    (auth.role = Role.admin →
      (updateNote auth n.id t c now notes).1.status = 200 ∧
      (deleteNote auth n.id notes).1 = ⟨200, RespBody.successJson⟩ ∧
      n ∉ (deleteNote auth n.id notes).2) := by
  have hfind := findNote_eq_some_of_mem notes n auth.tenantId hnd hmem htid
  constructor
  · intro hrole
    have hcond : auth.role = Role.member ∧ n.user_id ≠ auth.sub := ⟨hrole, hnotown⟩
    constructor
    · simp only [updateNote, hfind]
      rw [if_pos hcond]
    · simp only [deleteNote, hfind]
      rw [if_pos hcond]
  · intro hrole
    have hown : ¬(auth.role = Role.member ∧ n.user_id ≠ auth.sub) := by
      rintro ⟨h1, -⟩
      rw [hrole] at h1
      cases h1
    refine ⟨?_, ?_, ?_⟩
    · rw [updateNote_authorized auth n t c now notes hnd hmem htid hown]
    · simp only [deleteNote, hfind]
      rw [if_neg hown]
    · simp only [deleteNote, hfind]
      rw [if_neg hown]
      intro hmem'
      simp at hmem'

/-- C3 witness: the acme note owned by user 2, attacked by the member claim
(sub 1 would be the admin); here the member claim has sub 2, so take the
note owned by user 1 instead. -/
theorem ownership_gating_witness :
    (NotesPK notes0 ∧ noteAcme2 ∈ notes0 ∧
      noteAcme2.tenant_id = memberAcme.tenantId ∧ noteAcme2.user_id ≠ memberAcme.sub) ∧
    ((memberAcme.role = Role.member →
        updateNote memberAcme noteAcme2.id (some "x") none 9 notes0 =
          (⟨403, RespBody.errorMsg "Forbidden: You can only edit your own notes"⟩,
            notes0) ∧
        deleteNote memberAcme noteAcme2.id notes0 =
          (⟨403, RespBody.errorMsg "Forbidden: You can only delete your own notes"⟩,
            notes0)) ∧
      (memberAcme.role = Role.admin →
        (updateNote memberAcme noteAcme2.id (some "x") none 9 notes0).1.status = 200 ∧
        (deleteNote memberAcme noteAcme2.id notes0).1 = ⟨200, RespBody.successJson⟩ ∧
        noteAcme2 ∉ (deleteNote memberAcme noteAcme2.id notes0).2)) :=
  ⟨⟨by decide, by decide, by decide, by decide⟩,
    ownership_gating memberAcme noteAcme2 (some "x") none 9 notes0
      (by decide) (by decide) (by decide) (by decide)⟩

/-- C4: Leak avoidance — against a note of a different tenant, `getNote`,
`updateNote` and `deleteNote` answer exactly as they do for an id that no
note carries: status 404, identical responses. -/
theorem leak_avoidance (auth : JWTPayload) (n : Note) (t c : Option String)
    (now : Nat) (notes : List Note) (absentId : Nat)
    (hnd : NotesPK notes) (hmem : n ∈ notes) (hcross : n.tenant_id ≠ auth.tenantId)
    (habs : ∀ m ∈ notes, m.id ≠ absentId) :
    (getNote auth n.id notes = getNote auth absentId notes ∧
      (getNote auth n.id notes).status = 404) ∧
    ((updateNote auth n.id t c now notes).1 = (updateNote auth absentId t c now notes).1 ∧
      (updateNote auth n.id t c now notes).1.status = 404) ∧
    ((deleteNote auth n.id notes).1 = (deleteNote auth absentId notes).1 ∧
      (deleteNote auth n.id notes).1.status = 404) := by
  have h1 := findNote_eq_none_of_cross notes n auth.tenantId hnd hmem hcross
  have h2 := findNote_eq_none_of_absent notes absentId auth.tenantId habs
  refine ⟨⟨?_, ?_⟩, ⟨?_, ?_⟩, ⟨?_, ?_⟩⟩ <;>
    simp only [getNote, updateNote, deleteNote, h1, h2]

/-- C4 witness: the acme member claim against the globex note versus an id
that exists nowhere. -/
theorem leak_avoidance_witness :
    (NotesPK notes0 ∧ noteGlobex ∈ notes0 ∧
      noteGlobex.tenant_id ≠ memberAcme.tenantId ∧
      (∀ m ∈ notes0, m.id ≠ 99)) ∧
    ((getNote memberAcme noteGlobex.id notes0 = getNote memberAcme 99 notes0 ∧
        (getNote memberAcme noteGlobex.id notes0).status = 404) ∧
      ((updateNote memberAcme noteGlobex.id none none 9 notes0).1 =
          (updateNote memberAcme 99 none none 9 notes0).1 ∧
        (updateNote memberAcme noteGlobex.id none none 9 notes0).1.status = 404) ∧
      ((deleteNote memberAcme noteGlobex.id notes0).1 =
          (deleteNote memberAcme 99 notes0).1 ∧
        (deleteNote memberAcme noteGlobex.id notes0).1.status = 404)) :=
  ⟨⟨by decide, by decide, by decide, by decide⟩,
    leak_avoidance memberAcme noteGlobex none none 9 notes0 99
      (by decide) (by decide) (by decide) (by decide)⟩

/-- C5: Role gating — a non-admin claim is refused by the `requireAuth('admin')`
middleware with 403 before either handler body runs, so the store is
untouched; an admin claim whose slug matches upgrades its tenant to pro. -/
theorem role_gating (secret : String) (tok : Token) (now : Nat) (c : JWTPayload)
    (slug : String) (tenants : List Tenant) (email roleField : Option String)
    (users : List User) (newId : Nat)
    (hver : verifyToken secret tok now = VerifyResult.ok c) :
    (c.role ≠ Role.admin →
      upgradePlan secret (some tok) now slug tenants =
        (⟨403, RespBody.errorMsg "Forbidden"⟩, tenants) ∧
      inviteUser secret (some tok) now slug email roleField users newId =
        (⟨403, RespBody.errorMsg "Forbidden"⟩, users)) ∧
    (c.role = Role.admin → slug = c.tenantSlug →
      (upgradePlan secret (some tok) now slug tenants).1 =
        ⟨200, RespBody.planJson Plan.pro⟩ ∧
      ∀ t ∈ (upgradePlan secret (some tok) now slug tenants).2,
        t.id = c.tenantId → t.plan = Plan.pro) := by
  constructor
  · intro hrole
    have hmid : requireAuth (some Role.admin) secret (some tok) now =
        Except.error ⟨403, RespBody.errorMsg "Forbidden"⟩ := by
      simp only [requireAuth, hver]
      rw [if_pos hrole]
    exact ⟨by simp only [upgradePlan, hmid], by simp only [inviteUser, hmid]⟩
  · intro hrole hslug
    have hmid : requireAuth (some Role.admin) secret (some tok) now = Except.ok c := by
      simp only [requireAuth, hver]
      rw [if_neg (by simp [hrole])]
    constructor
    · simp only [upgradePlan, hmid]
      rw [if_neg (by simp [hslug])]
    · simp only [upgradePlan, hmid]
      rw [if_neg (by simp [hslug])]
      intro t ht htid
      rcases List.mem_map.mp ht with ⟨s, hs, rfl⟩
      by_cases h : s.id = c.tenantId
      · simp [h]
      · rw [if_neg (by simp [h])] at htid ⊢
        exact absurd htid h

/-- C5 witness: the acme admin upgrading its own tenant over the seeded store. -/
theorem role_gating_witness :
    verifyToken secret0 (signToken secret0 adminAcme 0) 100 =
        VerifyResult.ok adminAcme ∧
    ((adminAcme.role ≠ Role.admin →
        upgradePlan secret0 (some (signToken secret0 adminAcme 0)) 100 "acme" tenants0 =
          (⟨403, RespBody.errorMsg "Forbidden"⟩, tenants0) ∧
        inviteUser secret0 (some (signToken secret0 adminAcme 0)) 100 "acme"
            (some "x@acme.test") (some "member") [] 5 =
          (⟨403, RespBody.errorMsg "Forbidden"⟩, [])) ∧
      (adminAcme.role = Role.admin → "acme" = adminAcme.tenantSlug →
        (upgradePlan secret0 (some (signToken secret0 adminAcme 0)) 100 "acme"
            tenants0).1 = ⟨200, RespBody.planJson Plan.pro⟩ ∧
        ∀ t ∈ (upgradePlan secret0 (some (signToken secret0 adminAcme 0)) 100 "acme"
            tenants0).2, t.id = adminAcme.tenantId → t.plan = Plan.pro)) :=
  ⟨by decide,
    role_gating secret0 (signToken secret0 adminAcme 0) 100 adminAcme "acme" tenants0
      (some "x@acme.test") (some "member") [] 5 (by decide)⟩

/-- C6 counterexample: a member claim of tenant acme aimed at slug globex is
denied by the role check of the middleware — the body is the generic
role-denial "Forbidden", not the cross-tenant denial — so the tenant-scoping
check is not evaluated first. -/
theorem rule_order_counterexample :
    upgradePlan secret0 (some (signToken secret0 memberAcme 0)) 100 "globex" tenants0 =
      (⟨403, RespBody.errorMsg "Forbidden"⟩, tenants0) ∧
    inviteUser secret0 (some (signToken secret0 memberAcme 0)) 100 "globex"
        (some "x@globex.test") (some "member") [] 5 =
      (⟨403, RespBody.errorMsg "Forbidden"⟩, []) ∧
    upgradePlan secret0 (some (signToken secret0 memberAcme 0)) 100 "globex" tenants0 ≠
      (⟨403, RespBody.errorMsg "Forbidden: Cannot upgrade other tenants"⟩, tenants0) := by
  refine ⟨by decide, by decide, by decide⟩

/-- C6 amended: for an upgradePlan or inviteUser request whose path slug
differs from the claim's tenant slug, the request is denied with 403, but the
role-gating check of the middleware is evaluated first and takes precedence:
a non-admin claim receives the generic role denial, and only an admin claim
receives the cross-tenant denial. -/
theorem rule_order_amended (secret : String) (tok : Token) (now : Nat)
    (c : JWTPayload) (slug : String) (tenants : List Tenant)
    (email roleField : Option String) (users : List User) (newId : Nat)
    (hver : verifyToken secret tok now = VerifyResult.ok c)
    (hslug : slug ≠ c.tenantSlug) :
    (c.role ≠ Role.admin →
      upgradePlan secret (some tok) now slug tenants =
        (⟨403, RespBody.errorMsg "Forbidden"⟩, tenants) ∧
      inviteUser secret (some tok) now slug email roleField users newId =
        (⟨403, RespBody.errorMsg "Forbidden"⟩, users)) ∧
    (c.role = Role.admin →
      upgradePlan secret (some tok) now slug tenants =
        (⟨403, RespBody.errorMsg "Forbidden: Cannot upgrade other tenants"⟩, tenants) ∧
      inviteUser secret (some tok) now slug email roleField users newId =
        (⟨403, RespBody.errorMsg "Forbidden: Cannot invite to other tenants"⟩, users)) := by
  constructor
  · intro hrole
    have hmid : requireAuth (some Role.admin) secret (some tok) now =
        Except.error ⟨403, RespBody.errorMsg "Forbidden"⟩ := by
      simp only [requireAuth, hver]
      rw [if_pos hrole]
    exact ⟨by simp only [upgradePlan, hmid], by simp only [inviteUser, hmid]⟩
  · intro hrole
    have hmid : requireAuth (some Role.admin) secret (some tok) now = Except.ok c := by
      simp only [requireAuth, hver]
      rw [if_neg (by simp [hrole])]
    constructor
    · simp only [upgradePlan, hmid]
      rw [if_pos hslug]
    · simp only [inviteUser, hmid]
      rw [if_pos hslug]

/-- C6 amended witness: the acme admin aimed at slug globex receives the
cross-tenant denials. -/
theorem rule_order_amended_witness :
    (verifyToken secret0 (signToken secret0 adminAcme 0) 100 =
        VerifyResult.ok adminAcme ∧ "globex" ≠ adminAcme.tenantSlug) ∧
    ((adminAcme.role ≠ Role.admin →
        upgradePlan secret0 (some (signToken secret0 adminAcme 0)) 100 "globex"
            tenants0 =
          (⟨403, RespBody.errorMsg "Forbidden"⟩, tenants0) ∧
        inviteUser secret0 (some (signToken secret0 adminAcme 0)) 100 "globex"
            (some "x@globex.test") (some "member") [] 5 =
          (⟨403, RespBody.errorMsg "Forbidden"⟩, [])) ∧
      (adminAcme.role = Role.admin →
        upgradePlan secret0 (some (signToken secret0 adminAcme 0)) 100 "globex"
            tenants0 =
          (⟨403, RespBody.errorMsg "Forbidden: Cannot upgrade other tenants"⟩,
            tenants0) ∧
        inviteUser secret0 (some (signToken secret0 adminAcme 0)) 100 "globex"
            (some "x@globex.test") (some "member") [] 5 =
          (⟨403, RespBody.errorMsg "Forbidden: Cannot invite to other tenants"⟩,
            []))) :=
  ⟨⟨by decide, by decide⟩,
    rule_order_amended secret0 (signToken secret0 adminAcme 0) 100 adminAcme "globex"
      tenants0 (some "x@globex.test") (some "member") [] 5 (by decide) (by decide)⟩

/-- C8: Credential-failure indistinguishability — a login with an email no
user carries and a login with a known email but a failing password comparison
produce the very same response: 401 with the generic invalid-credentials
body. -/
theorem login_indistinguishable (e1 p1 e2 p2 : String) (users : List User)
    (tenants : List Tenant) (secret : String) (now : Nat) (u : User)
    (he1 : e1.isEmpty = false) (hp1 : p1.isEmpty = false)
    (he2 : e2.isEmpty = false) (hp2 : p2.isEmpty = false)
    (hunknown : ∀ v ∈ users, v.email ≠ e1)
    (hfound : users.find? (fun v => v.email == e2) = some u)
    (hwrong : bcryptCompare p2 u.password_hash = false) :
    login (some e1) (some p1) users tenants secret now =
      ⟨401, RespBody.errorMsg "Invalid credentials"⟩ ∧
    login (some e2) (some p2) users tenants secret now =
      ⟨401, RespBody.errorMsg "Invalid credentials"⟩ ∧
    login (some e1) (some p1) users tenants secret now =
      login (some e2) (some p2) users tenants secret now := by
  have hnone : users.find? (fun v => v.email == e1) = none := by
    rw [List.find?_eq_none]
    intro v hv
    simpa using hunknown v hv
  have h1 : login (some e1) (some p1) users tenants secret now =
      ⟨401, RespBody.errorMsg "Invalid credentials"⟩ := by
    simp [login, jsFalsy, he1, hp1, hnone]
  have h2 : login (some e2) (some p2) users tenants secret now =
      ⟨401, RespBody.errorMsg "Invalid credentials"⟩ := by
    simp [login, jsFalsy, he2, hp2, hfound, hwrong]
  exact ⟨h1, h2, h1.trans h2.symm⟩

/-- C8 witness: a store with one acme user; an unknown email versus that
user's email with the wrong password. -/
theorem login_indistinguishable_witness :
    ("ghost@acme.test".isEmpty = false ∧ "pw".isEmpty = false ∧
      "user@acme.test".isEmpty = false ∧ "wrong".isEmpty = false ∧
      (∀ v ∈ [(⟨2, "user@acme.test", bcryptHash "password" 10, Role.member, 1⟩ : User)],
        v.email ≠ "ghost@acme.test") ∧
      [(⟨2, "user@acme.test", bcryptHash "password" 10, Role.member, 1⟩ : User)].find?
          (fun v => v.email == "user@acme.test") =
        some ⟨2, "user@acme.test", bcryptHash "password" 10, Role.member, 1⟩ ∧
      bcryptCompare "wrong" (bcryptHash "password" 10) = false) ∧
    (login (some "ghost@acme.test") (some "pw")
        [⟨2, "user@acme.test", bcryptHash "password" 10, Role.member, 1⟩]
        tenants0 secret0 0 =
      ⟨401, RespBody.errorMsg "Invalid credentials"⟩ ∧
    login (some "user@acme.test") (some "wrong")
        [⟨2, "user@acme.test", bcryptHash "password" 10, Role.member, 1⟩]
        tenants0 secret0 0 =
      ⟨401, RespBody.errorMsg "Invalid credentials"⟩ ∧
    login (some "ghost@acme.test") (some "pw")
        [⟨2, "user@acme.test", bcryptHash "password" 10, Role.member, 1⟩]
        tenants0 secret0 0 =
      login (some "user@acme.test") (some "wrong")
        [⟨2, "user@acme.test", bcryptHash "password" 10, Role.member, 1⟩]
        tenants0 secret0 0) :=
  ⟨⟨by decide, by decide, by decide, by decide, by decide, by decide, by decide⟩,
    login_indistinguishable "ghost@acme.test" "pw" "user@acme.test" "wrong"
      [⟨2, "user@acme.test", bcryptHash "password" 10, Role.member, 1⟩]
      tenants0 secret0 0
      ⟨2, "user@acme.test", bcryptHash "password" 10, Role.member, 1⟩
      (by decide) (by decide) (by decide) (by decide) (by decide) (by decide)
      (by decide)⟩

/-- C9: Implicit default credential — a successful invite stores the new user
with the bcrypt hash of the fixed string "password" (the request body carries
no password field), so the invited user can authenticate with "password". -/
theorem invite_default_password (secret : String) (tok : Token) (now : Nat)
    (c : JWTPayload) (e : String) (roleField : Option String)
    (users : List User) (newId : Nat)
    (hver : verifyToken secret tok now = VerifyResult.ok c)
    (hrole : c.role = Role.admin)
    (he : e.isEmpty = false)
    (hrf : roleField = some "admin" ∨ roleField = some "member")
    (hdup : ∀ v ∈ users, v.email ≠ e) :
    inviteUser secret (some tok) now c.tenantSlug (some e) roleField users newId =
      (⟨200, RespBody.successJson⟩,
        users ++ [{ id := newId, email := e
                    password_hash := bcryptHash "password" 10
                    role := if roleField = some "admin" then Role.admin else Role.member
                    tenant_id := c.tenantId }]) ∧
    bcryptCompare "password" (bcryptHash "password" 10) = true := by
  have hmid : requireAuth (some Role.admin) secret (some tok) now = Except.ok c := by
    simp only [requireAuth, hver]
    rw [if_neg (by simp [hrole])]
  have hany : users.any (fun u => u.email == e) = false := by
    rw [List.any_eq_false]
    intro v hv
    simpa using hdup v hv
  constructor
  · simp only [inviteUser, hmid]
    rw [if_neg (not_not_intro rfl)]
    rw [if_neg (fun h => h.elim
      (fun hb => by simp [jsFalsy, he] at hb)
      (fun hn => hn hrf))]
    simp only [Option.getD_some, hany]
    rw [if_neg (by simp)]
  · rfl

/-- C9 witness: the acme admin inviting a fresh member into an empty user
store. -/
theorem invite_default_password_witness :
    (verifyToken secret0 (signToken secret0 adminAcme 0) 100 =
        VerifyResult.ok adminAcme ∧
      adminAcme.role = Role.admin ∧ "new@acme.test".isEmpty = false ∧
      (some "member" = some "admin" ∨ some "member" = some "member") ∧
      (∀ v ∈ ([] : List User), v.email ≠ "new@acme.test")) ∧
    (inviteUser secret0 (some (signToken secret0 adminAcme 0)) 100
        adminAcme.tenantSlug (some "new@acme.test") (some "member") [] 5 =
      (⟨200, RespBody.successJson⟩,
        [] ++ [{ id := 5, email := "new@acme.test"
                 password_hash := bcryptHash "password" 10
                 role := if (some "member" : Option String) = some "admin" then
                   Role.admin else Role.member
                 tenant_id := adminAcme.tenantId }]) ∧
    bcryptCompare "password" (bcryptHash "password" 10) = true) :=
  ⟨⟨by decide, by decide, by decide, by decide, by decide⟩,
    invite_default_password secret0 (signToken secret0 adminAcme 0) 100 adminAcme
      "new@acme.test" (some "member") [] 5
      (by decide) (by decide) (by decide) (by decide) (by decide)⟩

/-- C10: Update frame — an authorized update accepts any combination of
absent title and content (no body validation), each absent field keeping the
stored value (COALESCE), and rewrites only the targeted note's title, content
and updated_at, leaving its id, tenant_id, user_id and created_at — and every
other note — unchanged. -/
theorem update_frame (auth : JWTPayload) (n : Note) (t c : Option String)
    (now : Nat) (notes : List Note) (hnd : NotesPK notes) (hmem : n ∈ notes)
    (htid : n.tenant_id = auth.tenantId)
    (hown : auth.role = Role.admin ∨ n.user_id = auth.sub) :
    (updateNote auth n.id t c now notes).1 =
      ⟨200, RespBody.noteJson
        { n with title := t.getD n.title, content := c.getD n.content
                 updated_at := now }⟩ ∧
    { n with title := t.getD n.title, content := c.getD n.content
             updated_at := now } ∈ (updateNote auth n.id t c now notes).2 ∧
    (updateNote auth n.id t c now notes).2.length = notes.length ∧
    (∀ m ∈ notes, m.id ≠ n.id → m ∈ (updateNote auth n.id t c now notes).2) := by
  have hown' : ¬(auth.role = Role.member ∧ n.user_id ≠ auth.sub) := by
    rintro ⟨h1, h2⟩
    rcases hown with h | h
    · rw [h] at h1
      cases h1
    · exact h2 h
  rw [updateNote_authorized auth n t c now notes hnd hmem htid hown']
  refine ⟨rfl, ?_, by simp, ?_⟩
  · refine List.mem_map.mpr ⟨n, hmem, ?_⟩
    rw [if_pos (by simp)]
  · intro m hm hne
    refine List.mem_map.mpr ⟨m, hm, ?_⟩
    rw [if_neg (by simp [hne])]

/-- C10 witness: the acme admin updating the member's note with title absent
and a fresh content. -/
theorem update_frame_witness :
    (NotesPK notes0 ∧ noteAcme ∈ notes0 ∧
      noteAcme.tenant_id = adminAcme.tenantId ∧
      (adminAcme.role = Role.admin ∨ noteAcme.user_id = adminAcme.sub)) ∧
    ((updateNote adminAcme noteAcme.id none (some "c9") 9 notes0).1 =
        ⟨200, RespBody.noteJson
          { noteAcme with title := (none : Option String).getD noteAcme.title
                          content := (some "c9").getD noteAcme.content
                          updated_at := 9 }⟩ ∧
      { noteAcme with title := (none : Option String).getD noteAcme.title
                      content := (some "c9").getD noteAcme.content
                      updated_at := 9 } ∈
        (updateNote adminAcme noteAcme.id none (some "c9") 9 notes0).2 ∧
      (updateNote adminAcme noteAcme.id none (some "c9") 9 notes0).2.length =
        notes0.length ∧
      (∀ m ∈ notes0, m.id ≠ noteAcme.id →
        m ∈ (updateNote adminAcme noteAcme.id none (some "c9") 9 notes0).2)) :=
  ⟨⟨by decide, by decide, by decide, by decide⟩,
    update_frame adminAcme noteAcme none (some "c9") 9 notes0
      (by decide) (by decide) (by decide) (by decide)⟩

end MultiTenant
